import Mathlib

/-!
Verification of the expression-compilation core (src/expression.c).

The development shallow-embeds the parser of expression.c into Lean:

* Token vectors are lists of strings; vec_get is modelled by vecGet, which
  returns an out-of-bounds error for an index past the vector (the C vector
  collaborator gives no contract for such reads).
* size_t arithmetic is modelled on Nat with explicit wraparound: sdec is the
  size_t decrement (0 - 1 wraps to SIZE_MAX) and ssub is size_t subtraction.
* The C NULL pointer for ast_node is modelled by the astNode.nullNode
  constructor; dereferencing NULL surfaces as the nullDeref error.
* raise_compiler_error never returns; it is modelled by the compilerError
  result carrying the message string (source locations are not modelled, as
  the line argument only tags messages).
* The external collaborators (namespace lookup, literal-type inference, AST
  node builders) are modelled from their contracts in the specification,
  since their sources are outside src/: the namespace is a partial map from
  names to declared types, literal inference a partial map from token text to
  a type, and the builders construct the corresponding astNode values.
* The recursive parser functions take an explicit fuel argument so that they
  are total Lean functions; fuel exhaustion is the distinct outOfFuel result,
  never confused with any behaviour of the C code.
-/

/-- Failure modes of the embedded code: a raised compiler error with its
message, an out-of-bounds vector read, a NULL-pointer dereference, and
exhaustion of the explicit recursion fuel of the embedding. -/
inductive Err where
  | compilerError (msg : String)
  | oob
  | nullDeref
  | outOfFuel
deriving DecidableEq, Repr

instance {ε α : Type} [DecidableEq ε] [DecidableEq α] : DecidableEq (Except ε α) :=
  fun a b =>
  match a, b with
  | .ok x, .ok y =>
    if h : x = y then isTrue (by rw [h]) else isFalse (by intro hc; cases hc; exact h rfl)
  | .error x, .error y =>
    if h : x = y then isTrue (by rw [h]) else isFalse (by intro hc; cases hc; exact h rfl)
  | .ok _, .error _ => isFalse (by intro h; cases h)
  | .error _, .ok _ => isFalse (by intro h; cases h)

/-- AST nodes of the core: nullNode models the C NULL pointer, the two leaf
shapes carry a resolved type and text, and binaryNode carries the result
type, the attached assembly-generator tag, and the two children (the left
child may be NULL, since the C code stores it without dereferencing). -/
inductive astNode where
  | nullNode
  | literalNode (expr_type : String) (value : String)
  | varNode (expr_type : String) (name : String)
  | binaryNode (expr_type : String) (generator : String) (left : astNode) (right : astNode)
deriving DecidableEq, Repr

/-- The expr_type field read off a node; reading it from nullNode is a NULL
dereference in C, so every use in the embedding is guarded and this total
function is only applied to non-null nodes. -/
def astNode.expr_type_of : astNode → String
  | .nullNode => ""
  | .literalNode t _ => t
  | .varNode t _ => t
  | .binaryNode t _ _ _ => t

/-- The parser state struct expression_parser_s of expression.c. The C field
named end is called endIdx here (end is a Lean keyword); the line field is
dropped because it only tags error messages with a location. The two
collaborator maps (namespace lookup and literal-type inference) ride along in
the state exactly like the ns pointer does in C. -/
structure expression_parser_s where
  tokenv : List String
  token : String
  token_index : Nat
  expr_start : Nat
  start : Nat
  endIdx : Nat
  op_group_index : Nat
  paren_matches : Nat → Nat
  ns : String → Option String
  get_literal_type : String → Option String

/-- SIZE_MAX for the 64-bit size_t of the target platform. -/
def SIZE_MAX : Nat := 18446744073709551615

/-- size_t decrement: 0 - 1 wraps around to SIZE_MAX. -/
def sdec (i : Nat) : Nat := if i = 0 then SIZE_MAX else i - 1

/-- size_t subtraction with wraparound. -/
def ssub (a b : Nat) : Nat := if b ≤ a then a - b else SIZE_MAX + 1 + a - b

/-- vec_get on the token vector: an index past the vector has no contract
with the vector collaborator and is reported as the oob error. -/
def vecGet (l : List String) (i : Nat) : Except Err String :=
  if h : i < l.length then .ok (l.get ⟨i, h⟩) else .error .oob

/-- COMMON_PRECEDENCE_GROUPS of expression.c. -/
def COMMON_PRECEDENCE_GROUPS : Nat := 3

/-- The operators table of expression.c: three precedence groups, each a list
of pairs of the operator token and the name of its parse function. -/
def operators : List (List (String × String)) :=
  [[("=", "assignment_parser")],
   [("+", "add_parser"), ("-", "sub_parser")],
   [("*", "mul_parser"), ("/", "div_parser"), ("%", "mod_parser")]]

/-- The scan compile_operator performs over one operator group: walk the
entries in order and return the first whose operator_token equals the current
token (strcmp == 0), as the C loop over the NULL-terminated row does. -/
def find_operator : List (String × String) → String → Option (String × String)
  | [], _ => none
  | op :: rest, tok => if tok = op.fst then some op else find_operator rest tok

/-- The assembly generator each wrapper parse function binds: mul_parser
passes mul_assembly, div_parser div_assembly, and so on (expression.c lines
79 to 97). Generators are modelled as tags carried on the built node. -/
def assembly_generator_of (parse_fn : String) : String :=
  if parse_fn = "add_parser" then "add_assembly"
  else if parse_fn = "sub_parser" then "sub_assembly"
  else if parse_fn = "mul_parser" then "mul_assembly"
  else if parse_fn = "div_parser" then "div_assembly"
  else "mod_assembly"

/-- Modelled from the spec: the AST node builder literal_node_new (its source
is outside src/); it produces a leaf literal node with the inferred type and
the token text. -/
def literal_node_new (ty : String) (value : String) : astNode :=
  .literalNode ty value

/-- Modelled from the spec: the AST node builder var_node_new (its source is
outside src/); it produces a leaf variable node with the declared type and
the name. -/
def var_node_new (ty : String) (name : String) : astNode :=
  .varNode ty name

/-- Modelled from the spec: the AST node builder binary_operation_new (its
source is outside src/); it produces a binary node with the given result
type, children and attached generator. The C argument order is kept. -/
def binary_operation_new (ty : String) (left : astNode) (right : astNode)
    (generator : String) : astNode :=
  .binaryNode ty generator left right

/-- Modelled from the spec: namespace lookup (its source is outside src/);
lookup(name) returns the declared type when the variable exists. The C
var_lookup returns an ast_node pointer whose expr_type is the declared type,
or NULL when the name is absent. -/
def var_lookup (ns : String → Option String) (name : String) : astNode :=
  match ns name with
  | some ty => .varNode ty name
  | none => .nullNode

/-- The body of parse_value after the token has been fetched: literal-type
inference first, then namespace lookup, then the Invalid Value error
(expression.c lines 129 to 144). -/
def resolve_value (get_literal_type : String → Option String)
    (ns : String → Option String) (token : String) : Except Err astNode :=
  match get_literal_type token with
  | some literal_type => .ok (literal_node_new literal_type token)
  | none =>
    match var_lookup ns token with
    | .nullNode => .error (.compilerError "Invalid Value")
    | var => .ok (var_node_new var.expr_type_of token)

/-- parse_value of expression.c: fetch the token at start and resolve it. -/
def parse_value (p : expression_parser_s) : Except Err astNode :=
  match vecGet p.tokenv p.start with
  | .error e => .error e
  | .ok token => resolve_value p.get_literal_type p.ns token

mutual

/-- parse_sub_expression of expression.c (lines 146 to 186): single-token
base case, then the fully-parenthesized shortcut, then the tier loop. The
parenthesized check reads the token at index endIdx, one past the exclusive
range end, exactly as the C code does with vec_get(tokenv, parser->end). -/
def parse_sub_expression (fuel : Nat) (p : expression_parser_s) : Except Err astNode :=
  match fuel with
  | 0 => .error .outOfFuel
  | fuel + 1 =>
    if p.start + 1 = p.endIdx then
      parse_value p
    else
      match vecGet p.tokenv p.start with
      | .error e => .error e
      | .ok first_token =>
        if first_token = "(" then
          match vecGet p.tokenv p.endIdx with
          | .error e => .error e
          | .ok past_end_token =>
            if past_end_token = ")" then
              parse_parenthetical_expression fuel p
            else
              tier_loop fuel p
        else
          tier_loop fuel p

/-- parse_parenthetical_expression of expression.c (lines 123 to 127):
increment start, decrement end (size_t decrement), and recurse with the same
tier index. -/
def parse_parenthetical_expression (fuel : Nat) (p : expression_parser_s) :
    Except Err astNode :=
  match fuel with
  | 0 => .error .outOfFuel
  | fuel + 1 =>
    parse_sub_expression fuel { p with start := p.start + 1, endIdx := sdec p.endIdx }

/-- The for loop of parse_sub_expression over precedence groups (line 164):
starting from the current op_group_index, scan each tier; a non-null result
returns, otherwise move to the next group; when the groups are exhausted the
function returns NULL (the nullNode result). -/
def tier_loop (fuel : Nat) (p : expression_parser_s) : Except Err astNode :=
  match fuel with
  | 0 => .error .outOfFuel
  | fuel + 1 =>
    if p.op_group_index < COMMON_PRECEDENCE_GROUPS then
      match scan_tier fuel p (sdec p.endIdx) with
      | .error e => .error e
      | .ok .nullNode => tier_loop fuel { p with op_group_index := p.op_group_index + 1 }
      | .ok node => .ok node
    else
      .ok .nullNode

/-- The while loop of parse_sub_expression (lines 167 to 181): scan right to
left while token_index >= start (token_index is size_t, so decrementing 0
wraps to SIZE_MAX and the condition stays true); a closing parenthesis jumps
the index to the recorded match, any other token is offered to
compile_operator, and a non-null result returns. -/
def scan_tier (fuel : Nat) (p : expression_parser_s) (token_index : Nat) :
    Except Err astNode :=
  match fuel with
  | 0 => .error .outOfFuel
  | fuel + 1 =>
    if p.start ≤ token_index then
      match vecGet p.tokenv token_index with
      | .error e => .error e
      | .ok tok =>
        if tok = ")" then
          scan_tier fuel p (sdec (p.paren_matches (ssub token_index p.expr_start)))
        else
          match compile_operator fuel
              { p with token_index := token_index, token := tok } with
          | .error e => .error e
          | .ok .nullNode => scan_tier fuel p (sdec token_index)
          | .ok operator_node => .ok operator_node
    else
      .ok .nullNode

/-- compile_operator of expression.c (lines 113 to 121): look the current
token up in the current operator group and run the bound parse function, or
return NULL when no entry matches. -/
def compile_operator (fuel : Nat) (p : expression_parser_s) : Except Err astNode :=
  match fuel with
  | 0 => .error .outOfFuel
  | fuel + 1 =>
    match find_operator (operators.getD p.op_group_index []) p.token with
    | none => .ok .nullNode
    | some op =>
      if op.snd = "assignment_parser" then assignment_parse_fn fuel p
      else binary_operation_parse_fn fuel p (assembly_generator_of op.snd)

/-- binary_operation_parser of expression.c (lines 67 to 77): copy the parser
state for the left operand with end at the operator, copy it for the right
operand with start one past the operator, and build the binary node typed by
the right operand. The copies keep op_group_index, so both operand parses
continue from the tier at which the operator was found. Dereferencing the
right result for its expr_type is a NULL dereference when that parse returned
NULL. The name carries a fn suffix because the exact C name is not available
in this development. -/
def binary_operation_parse_fn (fuel : Nat) (p : expression_parser_s)
    (generator : String) : Except Err astNode :=
  match fuel with
  | 0 => .error .outOfFuel
  | fuel + 1 =>
    match parse_sub_expression fuel { p with endIdx := p.token_index } with
    | .error e => .error e
    | .ok left =>
      match parse_sub_expression fuel { p with start := p.token_index + 1 } with
      | .error e => .error e
      | .ok .nullNode => .error .nullDeref
      | .ok right => .ok (binary_operation_new right.expr_type_of left right generator)

/-- assignment_parser of expression.c (lines 99 to 111): the Invalid
Assignment error unless the operator sits exactly one token after the
statement start (size_t subtraction), then a namespace lookup of the token
before the operator, then the value parsed from one past the operator to the
current range end. The name carries a fn suffix because the exact C name is
not available in this development. -/
def assignment_parse_fn (fuel : Nat) (p : expression_parser_s) : Except Err astNode :=
  match fuel with
  | 0 => .error .outOfFuel
  | fuel + 1 =>
    if ssub p.token_index p.expr_start ≠ 1 then
      .error (.compilerError "Invalid Assignment")
    else
      match vecGet p.tokenv (sdec p.token_index) with
      | .error e => .error e
      | .ok var_name =>
        match parse_sub_expression fuel { p with start := p.token_index + 1 } with
        | .error e => .error e
        | .ok .nullNode => .error .nullDeref
        | .ok value =>
          .ok (binary_operation_new value.expr_type_of (var_lookup p.ns var_name)
            value "assignment_assembly")

end

/-- The index dynamics of the scan_tier while loop in isolation: the same
loop as scan_tier, but reporting the index at which the current operator
group first matches (instead of running the bound parse function there).
Used to state termination properties of the right-to-left scan itself. -/
def find_split_index (fuel : Nat) (p : expression_parser_s) (token_index : Nat) :
    Except Err (Option Nat) :=
  match fuel with
  | 0 => .error .outOfFuel
  | fuel + 1 =>
    if p.start ≤ token_index then
      match vecGet p.tokenv token_index with
      | .error e => .error e
      | .ok tok =>
        if tok = ")" then
          find_split_index fuel p (sdec (p.paren_matches (ssub token_index p.expr_start)))
        else
          match find_operator (operators.getD p.op_group_index []) tok with
          | some _ => .ok (some token_index)
          | none => find_split_index fuel p (sdec token_index)
    else
      .ok none

/-- The loop of match_parens (expression.c lines 210 to 221), iterating i
from start to end with the pending-open stack and the match array. As in the
C source, the token tested on every iteration is vec_get(tokenv, start): the
token at the range start, not the token at i. -/
def match_parens_loop (tokenv : List String) (start : Nat) :
    Nat → Nat → List Nat → (Nat → Nat) → Except Err (Bool × (Nat → Nat))
  | 0, _, open_parens, matches_arr => .ok (open_parens.isEmpty, matches_arr)
  | count + 1, i, open_parens, matches_arr =>
    match vecGet tokenv start with
    | .error e => .error e
    | .ok token =>
      if token = "(" then
        match_parens_loop tokenv start count (i + 1) (i :: open_parens) matches_arr
      else if token = ")" then
        match open_parens with
        | [] => .ok (false, matches_arr)
        | top :: rest =>
          match_parens_loop tokenv start count (i + 1) rest
            (fun k => if k = i - start then top else matches_arr k)
      else
        match_parens_loop tokenv start count (i + 1) open_parens matches_arr

/-- match_parens of expression.c (lines 206 to 225). The matches_arr array is a
stack-allocated C array with indeterminate initial contents, modelled as an
arbitrary function passed in; the function result pairs the validity flag
with the (partially) written array. -/
def match_parens (tokenv : List String) (start endIdx : Nat)
    (matches_arr : Nat → Nat) : Except Err (Bool × (Nat → Nat)) :=
  match_parens_loop tokenv start (endIdx - start) start [] matches_arr

/-- init_expression_parser of expression.c (lines 188 to 196): expr_start and
start both take the range start, op_group_index starts at 0. The token and
token_index fields are uninitialized in C and are first written by the scan
before any read; they are given fixed dummy values here. -/
def init_expression_parser_state (tokenv : List String) (start endIdx : Nat)
    (ns : String → Option String) (get_literal_type : String → Option String)
    (paren_matches : Nat → Nat) : expression_parser_s :=
  { tokenv := tokenv
    token := ""
    token_index := 0
    expr_start := start
    start := start
    endIdx := endIdx
    op_group_index := 0
    paren_matches := paren_matches
    ns := ns
    get_literal_type := get_literal_type }

/-- parse_expression of expression.c (lines 227 to 242): run match_parens
over the range (the VLA starts with indeterminate contents paren_matches0),
raise Mismatched Parentheses when it reports imbalance, and otherwise parse
the range with the written match table. -/
def parse_expression (fuel : Nat) (tokenv : List String) (start endIdx : Nat)
    (ns : String → Option String) (get_literal_type : String → Option String)
    (paren_matches0 : Nat → Nat) : Except Err astNode :=
  match match_parens tokenv start endIdx paren_matches0 with
  | .error e => .error e
  | .ok (valid_parens, paren_matches) =>
    if valid_parens then
      parse_sub_expression fuel
        (init_expression_parser_state tokenv start endIdx ns get_literal_type paren_matches)
    else
      .error (.compilerError "Mismatched Parentheses")

/-- Modelled from the spec: the operand recursion the specification
describes for a non-assignment binary operator, identical to
binary_operation_parse_fn except that both operand recursions restart their
tier scan from the lowest precedence tier (op_group_index reset to 0). Used
only to compare the code against the specified behaviour. -/
def binary_operation_parse_fn_restart (fuel : Nat) (p : expression_parser_s)
    (generator : String) : Except Err astNode :=
  match fuel with
  | 0 => .error .outOfFuel
  | fuel + 1 =>
    match parse_sub_expression fuel
        { p with endIdx := p.token_index, op_group_index := 0 } with
    | .error e => .error e
    | .ok left =>
      match parse_sub_expression fuel
          { p with start := p.token_index + 1, op_group_index := 0 } with
      | .error e => .error e
      | .ok .nullNode => .error .nullDeref
      | .ok right => .ok (binary_operation_new right.expr_type_of left right generator)

/-- A token that can only be an operand: not an operator symbol of any
precedence group and not a parenthesis. -/
def operand_token (t : String) : Prop :=
  t ≠ "=" ∧ t ≠ "+" ∧ t ≠ "-" ∧ t ≠ "*" ∧ t ≠ "/" ∧ t ≠ "%" ∧ t ≠ "(" ∧ t ≠ ")"

instance (t : String) : Decidable (operand_token t) := by
  unfold operand_token; infer_instance

/-- A small concrete namespace used to instantiate theorems on concrete
inputs: the variables a, b, c and x are declared with type int. -/
def test_ns : String → Option String := fun t =>
  if t = "a" then some "int" else if t = "b" then some "int" else
  if t = "c" then some "int" else if t = "x" then some "int" else none

/-- A small concrete literal-type inference used to instantiate theorems on
concrete inputs: the tokens 1, 2, 3 and 5 are int literals. -/
def test_lit : String → Option String := fun t =>
  if t = "1" then some "int" else if t = "2" then some "int" else
  if t = "3" then some "int" else if t = "5" then some "int" else none

/-- A concrete stand-in for the indeterminate initial contents of the
stack-allocated match array. -/
def test_tbl : Nat → Nat := fun _ => 0

-- === helper lemmas shared by the claim theorems ===

theorem vecGet_cons_zero (x : String) (l : List String) :
    vecGet (x :: l) 0 = .ok x := by simp [vecGet]

theorem vecGet_cons_succ (x : String) (l : List String) (n : Nat) :
    vecGet (x :: l) (n + 1) = vecGet l n := by simp [vecGet]

theorem vecGet_append_add (p l : List String) (k : Nat) :
    vecGet (p ++ l) (p.length + k) = vecGet l k := by
  induction p with
  | nil => simp [vecGet]
  | cons x xs ih =>
    have h : (x :: xs).length + k = (xs.length + k) + 1 := by
      simp [List.length_cons]; omega
    rw [List.cons_append, h, vecGet_cons_succ]
    exact ih

theorem vecGet_append_zero (p l : List String) :
    vecGet (p ++ l) p.length = vecGet l 0 := by
  have h : p.length = p.length + 0 := by omega
  rw [h, vecGet_append_add]

theorem find_op_tier0_none (tok : String) (h : tok ≠ "=") :
    find_operator (operators.getD 0 []) tok = none := by
  simp [find_operator, operators, h]

theorem find_op_tier1_none (tok : String) (h1 : tok ≠ "+") (h2 : tok ≠ "-") :
    find_operator (operators.getD 1 []) tok = none := by
  simp [find_operator, operators, h1, h2]

theorem find_op_tier2_none (tok : String) (h1 : tok ≠ "*") (h2 : tok ≠ "/") (h3 : tok ≠ "%") :
    find_operator (operators.getD 2 []) tok = none := by
  simp [find_operator, operators, h1, h2, h3]

theorem find_op_tier1_sub :
    find_operator (operators.getD 1 []) "-" = some ("-", "sub_parser") := rfl

theorem find_op_tier1_add :
    find_operator (operators.getD 1 []) "+" = some ("+", "add_parser") := rfl

theorem find_op_tier2_mul :
    find_operator (operators.getD 2 []) "*" = some ("*", "mul_parser") := rfl

theorem scan_tier_exit (f : Nat) (p : expression_parser_s) (idx : Nat)
    (h : ¬ p.start ≤ idx) : scan_tier (f + 1) p idx = .ok .nullNode := by
  rw [scan_tier, if_neg h]

theorem scan_tier_step_nomatch (f : Nat) (p : expression_parser_s) (idx j : Nat)
    (tok : String)
    (hle : p.start ≤ idx)
    (hget : vecGet p.tokenv idx = .ok tok)
    (hpar : tok ≠ ")")
    (hfind : find_operator (operators.getD p.op_group_index []) tok = none)
    (hj : j = sdec idx) :
    scan_tier (f + 2) p idx = scan_tier (f + 1) p j := by
  subst hj
  rw [scan_tier, if_pos hle, hget]
  simp only [hpar, hfind, compile_operator, ite_false, ite_true, if_false, if_true]

theorem scan_tier_step_found (f : Nat) (p q : expression_parser_s) (idx : Nat)
    (tok sym pf : String) (node : astNode)
    (hle : p.start ≤ idx)
    (hget : vecGet p.tokenv idx = .ok tok)
    (hpar : tok ≠ ")")
    (hfind : find_operator (operators.getD p.op_group_index []) tok = some (sym, pf))
    (hpf : pf ≠ "assignment_parser")
    (hq : q = { p with token_index := idx, token := tok })
    (hbin : binary_operation_parse_fn f q (assembly_generator_of pf) = .ok node)
    (hnode : node ≠ .nullNode) :
    scan_tier (f + 2) p idx = .ok node := by
  subst hq
  rw [scan_tier, if_pos hle, hget]
  simp only [hpar, hfind, hpf, compile_operator, ite_false, ite_true, if_false, if_true]
  rw [hbin]
  cases node with
  | nullNode => exact absurd rfl hnode
  | literalNode t v => rfl
  | varNode t v => rfl
  | binaryNode t g l r => rfl

theorem tier_loop_step_next (f : Nat) (p q : expression_parser_s)
    (hg : p.op_group_index < COMMON_PRECEDENCE_GROUPS)
    (hq : q = { p with op_group_index := p.op_group_index + 1 })
    (hscan : scan_tier f p (sdec p.endIdx) = .ok .nullNode) :
    tier_loop (f + 1) p = tier_loop f q := by
  subst hq
  rw [tier_loop, if_pos hg, hscan]

theorem tier_loop_step_found (f : Nat) (p : expression_parser_s) (node : astNode)
    (hg : p.op_group_index < COMMON_PRECEDENCE_GROUPS)
    (hscan : scan_tier f p (sdec p.endIdx) = .ok node)
    (hnode : node ≠ .nullNode) :
    tier_loop (f + 1) p = .ok node := by
  rw [tier_loop, if_pos hg, hscan]
  cases node with
  | nullNode => exact absurd rfl hnode
  | literalNode t v => rfl
  | varNode t v => rfl
  | binaryNode t g l r => rfl

theorem parse_sub_single (f : Nat) (p : expression_parser_s)
    (h : p.start + 1 = p.endIdx) :
    parse_sub_expression (f + 1) p = parse_value p := by
  rw [parse_sub_expression, if_pos h]

theorem parse_sub_to_tiers (f : Nat) (p : expression_parser_s) (tok : String)
    (h1 : ¬ p.start + 1 = p.endIdx)
    (hget : vecGet p.tokenv p.start = .ok tok)
    (h2 : tok ≠ "(") :
    parse_sub_expression (f + 1) p = tier_loop f p := by
  rw [parse_sub_expression, if_neg h1, hget]
  simp [h2]

theorem binary_step (f : Nat) (p ql qr : expression_parser_s) (gen : String)
    (left right : astNode)
    (hql : ql = { p with endIdx := p.token_index })
    (hqr : qr = { p with start := p.token_index + 1 })
    (hl : parse_sub_expression f ql = .ok left)
    (hr : parse_sub_expression f qr = .ok right)
    (hrn : right ≠ .nullNode) :
    binary_operation_parse_fn (f + 1) p gen
      = .ok (binary_operation_new right.expr_type_of left right gen) := by
  subst hql
  subst hqr
  rw [binary_operation_parse_fn, hl, hr]
  cases right with
  | nullNode => exact absurd rfl hrn
  | literalNode t v => rfl
  | varNode t v => rfl
  | binaryNode t g l r => rfl

theorem parse_value_eq (p : expression_parser_s) (tok : String)
    (hget : vecGet p.tokenv p.start = .ok tok) :
    parse_value p = resolve_value p.get_literal_type p.ns tok := by
  rw [parse_value, hget]

theorem match_parens_loop_skip (tokenv : List String) (start count i : Nat)
    (stk : List Nat) (m : Nat → Nat) (tok : String)
    (hget : vecGet tokenv start = .ok tok)
    (h1 : tok ≠ "(") (h2 : tok ≠ ")") :
    match_parens_loop tokenv start (count + 1) i stk m
      = match_parens_loop tokenv start count (i + 1) stk m := by
  simp [match_parens_loop, hget, h1, h2]

theorem match_parens_loop_zero (tokenv : List String) (start i : Nat)
    (stk : List Nat) (m : Nat → Nat) :
    match_parens_loop tokenv start 0 i stk m = .ok (stk.isEmpty, m) := rfl

theorem parse_expression_eq (f : Nat) (tokenv : List String) (start endIdx : Nat)
    (ns lit : String → Option String) (m0 m1 : Nat → Nat)
    (hmp : match_parens tokenv start endIdx m0 = .ok (true, m1)) :
    parse_expression f tokenv start endIdx ns lit m0
      = parse_sub_expression f
          (init_expression_parser_state tokenv start endIdx ns lit m1) := by
  rw [parse_expression, hmp]
  rfl

theorem resolve_value_shape (lit ns : String → Option String) (tok : String) (n : astNode)
    (h : resolve_value lit ns tok = .ok n) :
    (∃ t, n = .literalNode t tok) ∨ (∃ t, n = .varNode t tok) := by
  unfold resolve_value at h
  cases hl : lit tok with
  | some t =>
    rw [hl] at h
    injection h with h2
    exact Or.inl ⟨t, h2.symm⟩
  | none =>
    rw [hl] at h
    cases hv : ns tok with
    | some ty =>
      rw [var_lookup] at h
      rw [hv] at h
      injection h with h2
      exact Or.inr ⟨ty, h2.symm⟩
    | none =>
      rw [var_lookup] at h
      rw [hv] at h
      cases h

theorem resolve_value_ne_null (lit ns : String → Option String) (tok : String) (n : astNode)
    (h : resolve_value lit ns tok = .ok n) : n ≠ .nullNode := by
  rcases resolve_value_shape lit ns tok n h with ⟨t, rfl⟩ | ⟨t, rfl⟩ <;> simp

theorem resolve_value_not_binary (lit ns : String → Option String) (tok : String) (n : astNode)
    (h : resolve_value lit ns tok = .ok n) :
    ∀ ty gen l r, n ≠ .binaryNode ty gen l r := by
  rcases resolve_value_shape lit ns tok n h with ⟨t, rfl⟩ | ⟨t, rfl⟩ <;> simp



theorem vecGet_error_is_oob (l : List String) (i : Nat) (e : Err)
    (h : vecGet l i = .error e) : e = .oob := by
  unfold vecGet at h
  split at h
  · cases h
  · injection h with h2
    exact h2.symm

theorem binary_parse_fn_ne_ok_null (f : Nat) (p : expression_parser_s) (gen : String) :
    binary_operation_parse_fn f p gen ≠ .ok .nullNode := by
  match f with
  | 0 => simp [binary_operation_parse_fn]
  | f + 1 =>
    rw [binary_operation_parse_fn]
    cases parse_sub_expression f { p with endIdx := p.token_index } with
    | error e => simp
    | ok left =>
      cases parse_sub_expression f { p with start := p.token_index + 1 } with
      | error e => simp
      | ok right => cases right <;> simp [binary_operation_new]



/-- Claim C1 (code bug evidence): match_parens classifies every position by
the token at the range start, not the current scan token. On the range
x ( ) it records nothing for the closing parenthesis at relative index 2
(the entry keeps its indeterminate initial value 99) and reports balance,
although the claim requires the table to map that close to its opener; on
the balanced range ( a ) it reports imbalance, because the first token (
makes the loop push an index on every iteration. -/
theorem c1_match_parens_classifies_by_first_token :
    (match_parens ["x", "(", ")"] 0 3 (fun _ => 99)).map (fun r => (r.fst, r.snd 2))
      = .ok (true, 99)
  ∧ (match_parens ["(", "a", ")"] 0 3 (fun _ => 99)).map (fun r => r.fst) = .ok false := by
  exact ⟨rfl, rfl⟩

/-- Claim C2 (code bug evidence): the fully-parenthesized shortcut of
parse_sub_expression tests the token one past the exclusive range end, so on
the range [1, 4) of the vector _ ( a ) x, whose first token is ( and whose
last token (index 3) is ), the pair is not stripped (index 4 holds x): the
parse falls through the tier loop to the silent NULL result instead of
recursing on the interior [2, 3), which by itself parses to the variable
leaf for a. The match table supplied maps the close at relative index 2 to
the opener at absolute index 1, as a correct matcher would. -/
theorem c2_paren_strip_checks_past_the_end :
    parse_sub_expression 50
      ⟨["_", "(", "a", ")", "x"], "", 0, 1, 1, 4, 0,
        (fun k => if k = 2 then 1 else 0), test_ns, test_lit⟩ = .ok .nullNode
  ∧ parse_sub_expression 50
      ⟨["_", "(", "a", ")", "x"], "", 0, 1, 2, 3, 0,
        (fun k => if k = 2 then 1 else 0), test_ns, test_lit⟩
      = .ok (.varNode "int" "a") := by
  exact ⟨by decide, by decide⟩

/-- Claim C3 (counterexample): the code and the restart-from-lowest-tier
semantics of the specification disagree. On the statement range [1, 8) of
the vector _ c * ( x = b ) ) with the split at the times operator (tier 2),
the code carries tier 2 into the right operand ( x = b ), whose interior
assignment is then never scanned, the operand parse returns NULL, and the
following dereference of the NULL right operand fails; restarting the
operand scan from the lowest tier instead finds the assignment and fails
with Invalid Assignment. The supplied match table maps the close at
relative index 6 to the opener at index 3. -/
theorem c3_restart_vs_carry_counterexample :
    binary_operation_parse_fn 40
      ⟨["_", "c", "*", "(", "x", "=", "b", ")", ")"], "*", 2, 1, 1, 8, 2,
        (fun k => if k = 6 then 3 else 0), test_ns, test_lit⟩ "mul_assembly"
      = .error .nullDeref
  ∧ binary_operation_parse_fn_restart 40
      ⟨["_", "c", "*", "(", "x", "=", "b", ")", ")"], "*", 2, 1, 1, 8, 2,
        (fun k => if k = 6 then 3 else 0), test_ns, test_lit⟩ "mul_assembly"
      = .error (.compilerError "Invalid Assignment") := by
  exact ⟨by decide, by decide⟩

/-- Claim C3 (amended): when the scan holds a non-assignment operator token
at index idx recognized by the current tier, the parser dispatches to the
binary operand parser on the state with token_index at the split; that
parser recurses on [start, token_index) as the left operand and on
[token_index + 1, end) as the right operand, and both recursive states carry
op_group_index through unchanged (continuing from the tier at which the
operator was found), rather than restarting from the lowest tier. -/
theorem c3_operand_recursions_carry_tier (f : Nat) (p : expression_parser_s) (idx : Nat)
    (tok sym pf : String)
    (hle : p.start ≤ idx)
    (hget : vecGet p.tokenv idx = .ok tok)
    (hpar : tok ≠ ")")
    (hfind : find_operator (operators.getD p.op_group_index []) tok = some (sym, pf))
    (hpf : pf ≠ "assignment_parser") :
    scan_tier (f + 2) p idx
      = binary_operation_parse_fn f { p with token_index := idx, token := tok }
          (assembly_generator_of pf)
  ∧ ∀ (g : Nat) (q : expression_parser_s) (gen : String),
      binary_operation_parse_fn (g + 1) q gen
        = match parse_sub_expression g { q with endIdx := q.token_index } with
          | Except.error e => Except.error e
          | Except.ok left =>
            match parse_sub_expression g { q with start := q.token_index + 1 } with
            | Except.error e => Except.error e
            | Except.ok astNode.nullNode => Except.error Err.nullDeref
            | Except.ok right =>
              Except.ok (binary_operation_new right.expr_type_of left right gen) := by
  constructor
  · rw [scan_tier, if_pos hle, hget]
    simp only [hpar, hfind, hpf, compile_operator, ite_false, ite_true, if_false, if_true]
    cases hb : binary_operation_parse_fn f { p with token_index := idx, token := tok }
        (assembly_generator_of pf) with
    | error e => rfl
    | ok node =>
      cases node with
      | nullNode => exact absurd hb (binary_parse_fn_ne_ok_null f _ _)
      | literalNode t v => rfl
      | varNode t v => rfl
      | binaryNode t g l r => rfl
  · intro g q gen
    rfl

/-- Witness for the amended claim C3 at a concrete state: the tier-1 scan of
the range [1, 4) of _ a + b sitting on the plus token dispatches to the
binary operand parser with the tier index still 1. -/
theorem c3_operand_recursions_carry_tier_witness :
    scan_tier 12 ⟨["_", "a", "+", "b"], "", 0, 1, 1, 4, 1, test_tbl, test_ns, test_lit⟩ 2
      = binary_operation_parse_fn 10
          ⟨["_", "a", "+", "b"], "+", 2, 1, 1, 4, 1, test_tbl, test_ns, test_lit⟩
          (assembly_generator_of "add_parser") :=
  (c3_operand_recursions_carry_tier 10
    ⟨["_", "a", "+", "b"], "", 0, 1, 1, 4, 1, test_tbl, test_ns, test_lit⟩
    2 "+" "+" "add_parser" (by decide) (by decide) (by decide) rfl (by decide)).1

/-- Claim C4 (code bug evidence): on the multi-token range [1, 3) of the
vector _ a b, which is not parenthesized and contains no operator in any
tier, parse_expression returns the NULL node silently (the line commented
figure out compiler error in the source) instead of raising a
MalformedExpression error through the error sink; no such error message
exists anywhere in the core. -/
theorem c4_malformed_expression_returns_silent_null :
    parse_expression 50 ["_", "a", "b"] 1 3 test_ns test_lit test_tbl = .ok .nullNode := by
  decide

/-- Claim C5 (code bug evidence): match_parens accepts the unbalanced range
a + b ) (its first token is not a parenthesis, so nothing is tracked and it
reports balance); the subsequent parse then jumps through the indeterminate
match table and dies on an out-of-range read rather than failing with
Mismatched Parentheses. The range ( a + b does fail with Mismatched
Parentheses, though through the same first-token defect. -/
theorem c5_mismatched_parens_detection :
    (match_parens ["a", "+", "b", ")"] 0 4 test_tbl).map (fun r => r.fst) = .ok true
  ∧ parse_expression 50 ["a", "+", "b", ")"] 0 4 test_ns test_lit test_tbl = .error .oob
  ∧ parse_expression 50 ["(", "a", "+", "b"] 0 4 test_ns test_lit test_tbl
      = .error (.compilerError "Mismatched Parentheses") := by
  exact ⟨rfl, by decide, by decide⟩

/-- Claim C6 (counterexample): parsing the full vector 1 - 2 - 3 as the
range [0, 5) does not produce the left-associative tree: the lowest-tier
scan decrements its unsigned index past zero, wraps to SIZE_MAX, and the
parse aborts on an out-of-range token read. -/
theorem c6_sub_at_offset_zero_counterexample :
    parse_expression 30 ["1", "-", "2", "-", "3"] 0 5 test_ns test_lit test_tbl
      = .error .oob := by
  decide

/-- Claim C6 (amended): for all operand tokens a, b, c that resolve as
values, parsing the range holding a - b - c at a positive offset into the
token vector (at least one token precedes the range) yields the
left-associative tree: the rightmost minus is the root, the earlier minus is
nested as its left operand, and the right operand of the root is the leaf for
c, never a binary node (so the tree is never the right-associative shape).
At offset zero the lowest-tier scan instead wraps its unsigned index and
reads out of range; see the counterexample theorem. -/
theorem c6_sub_left_associative_positive_offset (pref : List String) (a b c : String) (ns lit : String → Option String)
    (tbl : Nat → Nat) (na nb nc : astNode)
    (hp : pref ≠ [])
    (ha : operand_token a) (hb : operand_token b) (hc : operand_token c)
    (hra : resolve_value lit ns a = .ok na)
    (hrb : resolve_value lit ns b = .ok nb)
    (hrc : resolve_value lit ns c = .ok nc) :
    parse_expression 30 (pref ++ [a, "-", b, "-", c]) pref.length (pref.length + 5) ns lit tbl
      = .ok (.binaryNode nc.expr_type_of "sub_assembly"
          (.binaryNode nb.expr_type_of "sub_assembly" na nb) nc)
      ∧ (∀ ty gen l r, nc ≠ .binaryNode ty gen l r) := by
  obtain ⟨ha1, ha2, ha3, ha4, ha5, ha6, ha7, ha8⟩ := ha
  obtain ⟨hb1, hb2, hb3, hb4, hb5, hb6, hb7, hb8⟩ := hb
  obtain ⟨hc1, hc2, hc3, hc4, hc5, hc6, hc7, hc8⟩ := hc
  have hs : pref.length ≠ 0 := fun h => hp (List.eq_nil_of_length_eq_zero h)
  have t0 : vecGet (pref ++ [a, "-", b, "-", c]) pref.length = .ok a := by
    rw [vecGet_append_zero, vecGet_cons_zero]
  have t1 : vecGet (pref ++ [a, "-", b, "-", c]) (pref.length + 1) = .ok "-" := by
    rw [vecGet_append_add]; rfl
  have t2 : vecGet (pref ++ [a, "-", b, "-", c]) (pref.length + 2) = .ok b := by
    rw [vecGet_append_add]; rfl
  have t3 : vecGet (pref ++ [a, "-", b, "-", c]) (pref.length + 3) = .ok "-" := by
    rw [vecGet_append_add]; rfl
  have t4 : vecGet (pref ++ [a, "-", b, "-", c]) (pref.length + 4) = .ok c := by
    rw [vecGet_append_add]; rfl
  have hsd : pref.length - 1 = sdec pref.length := by simp [sdec, hs]
  have mp : match_parens (pref ++ [a, "-", b, "-", c]) pref.length (pref.length + 5) tbl = .ok (true, tbl) := by
    rw [match_parens, Nat.add_sub_cancel_left]
    rw [match_parens_loop_skip _ _ 4 _ _ _ a t0 ha7 ha8]
    rw [match_parens_loop_skip _ _ 3 _ _ _ a t0 ha7 ha8]
    rw [match_parens_loop_skip _ _ 2 _ _ _ a t0 ha7 ha8]
    rw [match_parens_loop_skip _ _ 1 _ _ _ a t0 ha7 ha8]
    rw [match_parens_loop_skip _ _ 0 _ _ _ a t0 ha7 ha8]
    rfl
  have ncNN : nc ≠ .nullNode := resolve_value_ne_null lit ns c nc hrc
  have nbNN : nb ≠ .nullNode := resolve_value_ne_null lit ns b nb hrb
  have hrr : parse_sub_expression 17 ⟨(pref ++ [a, "-", b, "-", c]), "-", pref.length + 1, pref.length, pref.length + 1 + 1, pref.length + 3, 1, tbl, ns, lit⟩ = .ok nb := by
    rw [parse_sub_single 16 ⟨(pref ++ [a, "-", b, "-", c]), "-", pref.length + 1, pref.length, pref.length + 1 + 1, pref.length + 3, 1, tbl, ns, lit⟩ rfl, parse_value_eq ⟨(pref ++ [a, "-", b, "-", c]), "-", pref.length + 1, pref.length, pref.length + 1 + 1, pref.length + 3, 1, tbl, ns, lit⟩ b t2]
    exact hrb
  have hll : parse_sub_expression 17 ⟨(pref ++ [a, "-", b, "-", c]), "-", pref.length + 1, pref.length, pref.length, pref.length + 1, 1, tbl, ns, lit⟩ = .ok na := by
    rw [parse_sub_single 16 ⟨(pref ++ [a, "-", b, "-", c]), "-", pref.length + 1, pref.length, pref.length, pref.length + 1, 1, tbl, ns, lit⟩ rfl, parse_value_eq ⟨(pref ++ [a, "-", b, "-", c]), "-", pref.length + 1, pref.length, pref.length, pref.length + 1, 1, tbl, ns, lit⟩ a t0]
    exact hra
  have hbin2 : binary_operation_parse_fn 18 ⟨(pref ++ [a, "-", b, "-", c]), "-", pref.length + 1, pref.length, pref.length, pref.length + 3, 1, tbl, ns, lit⟩ (assembly_generator_of "sub_parser")
      = .ok (.binaryNode nb.expr_type_of "sub_assembly" na nb) := by
    rw [binary_step 17 ⟨(pref ++ [a, "-", b, "-", c]), "-", pref.length + 1, pref.length, pref.length, pref.length + 3, 1, tbl, ns, lit⟩ ⟨(pref ++ [a, "-", b, "-", c]), "-", pref.length + 1, pref.length, pref.length, pref.length + 1, 1, tbl, ns, lit⟩ ⟨(pref ++ [a, "-", b, "-", c]), "-", pref.length + 1, pref.length, pref.length + 1 + 1, pref.length + 3, 1, tbl, ns, lit⟩ _ na nb rfl rfl hll hrr nbNN]
    rfl
  have scan2 : scan_tier 21 ⟨(pref ++ [a, "-", b, "-", c]), "-", pref.length + 3, pref.length, pref.length, pref.length + 3, 1, tbl, ns, lit⟩ (pref.length + 2)
      = .ok (.binaryNode nb.expr_type_of "sub_assembly" na nb) := by
    rw [scan_tier_step_nomatch 19 ⟨(pref ++ [a, "-", b, "-", c]), "-", pref.length + 3, pref.length, pref.length, pref.length + 3, 1, tbl, ns, lit⟩ (pref.length + 2) (pref.length + 1) b
      (Nat.le_add_right pref.length 2) t2 hb8 (find_op_tier1_none b hb2 hb3) rfl]
    rw [scan_tier_step_found 18 ⟨(pref ++ [a, "-", b, "-", c]), "-", pref.length + 3, pref.length, pref.length, pref.length + 3, 1, tbl, ns, lit⟩ ⟨(pref ++ [a, "-", b, "-", c]), "-", pref.length + 1, pref.length, pref.length, pref.length + 3, 1, tbl, ns, lit⟩ (pref.length + 1) "-" "-" "sub_parser" _
      (Nat.le_add_right pref.length 1) t1 (by decide) find_op_tier1_sub (by decide) rfl
      hbin2 (by simp)]
  have hl : parse_sub_expression 23 ⟨(pref ++ [a, "-", b, "-", c]), "-", pref.length + 3, pref.length, pref.length, pref.length + 3, 1, tbl, ns, lit⟩
      = .ok (.binaryNode nb.expr_type_of "sub_assembly" na nb) := by
    rw [parse_sub_to_tiers 22 ⟨(pref ++ [a, "-", b, "-", c]), "-", pref.length + 3, pref.length, pref.length, pref.length + 3, 1, tbl, ns, lit⟩ a ((by omega : ¬ (pref.length + 1 = pref.length + 3)))
      t0 ha7]
    rw [tier_loop_step_found 21 ⟨(pref ++ [a, "-", b, "-", c]), "-", pref.length + 3, pref.length, pref.length, pref.length + 3, 1, tbl, ns, lit⟩ _ ((by decide : (1:Nat) < COMMON_PRECEDENCE_GROUPS))
      scan2 (by simp)]
  have hr : parse_sub_expression 23 ⟨(pref ++ [a, "-", b, "-", c]), "-", pref.length + 3, pref.length, pref.length + 3 + 1, pref.length + 5, 1, tbl, ns, lit⟩ = .ok nc := by
    rw [parse_sub_single 22 ⟨(pref ++ [a, "-", b, "-", c]), "-", pref.length + 3, pref.length, pref.length + 3 + 1, pref.length + 5, 1, tbl, ns, lit⟩ rfl, parse_value_eq ⟨(pref ++ [a, "-", b, "-", c]), "-", pref.length + 3, pref.length, pref.length + 3 + 1, pref.length + 5, 1, tbl, ns, lit⟩ c t4]
    exact hrc
  have hbin : binary_operation_parse_fn 24 ⟨(pref ++ [a, "-", b, "-", c]), "-", pref.length + 3, pref.length, pref.length, pref.length + 5, 1, tbl, ns, lit⟩ (assembly_generator_of "sub_parser")
      = .ok (.binaryNode nc.expr_type_of "sub_assembly"
          (.binaryNode nb.expr_type_of "sub_assembly" na nb) nc) := by
    rw [binary_step 23 ⟨(pref ++ [a, "-", b, "-", c]), "-", pref.length + 3, pref.length, pref.length, pref.length + 5, 1, tbl, ns, lit⟩ ⟨(pref ++ [a, "-", b, "-", c]), "-", pref.length + 3, pref.length, pref.length, pref.length + 3, 1, tbl, ns, lit⟩ ⟨(pref ++ [a, "-", b, "-", c]), "-", pref.length + 3, pref.length, pref.length + 3 + 1, pref.length + 5, 1, tbl, ns, lit⟩ _ (.binaryNode nb.expr_type_of "sub_assembly" na nb)
      nc rfl rfl hl hr ncNN]
    rfl
  have scan1 : scan_tier 27 ⟨(pref ++ [a, "-", b, "-", c]), "", 0, pref.length, pref.length, pref.length + 5, 1, tbl, ns, lit⟩ (pref.length + 4)
      = .ok (.binaryNode nc.expr_type_of "sub_assembly"
          (.binaryNode nb.expr_type_of "sub_assembly" na nb) nc) := by
    rw [scan_tier_step_nomatch 25 ⟨(pref ++ [a, "-", b, "-", c]), "", 0, pref.length, pref.length, pref.length + 5, 1, tbl, ns, lit⟩ (pref.length + 4) (pref.length + 3) c
      (Nat.le_add_right pref.length 4) t4 hc8 (find_op_tier1_none c hc2 hc3) rfl]
    rw [scan_tier_step_found 24 ⟨(pref ++ [a, "-", b, "-", c]), "", 0, pref.length, pref.length, pref.length + 5, 1, tbl, ns, lit⟩ ⟨(pref ++ [a, "-", b, "-", c]), "-", pref.length + 3, pref.length, pref.length, pref.length + 5, 1, tbl, ns, lit⟩ (pref.length + 3) "-" "-" "sub_parser" _
      (Nat.le_add_right pref.length 3) t3 (by decide) find_op_tier1_sub (by decide) rfl
      hbin (by simp)]
  have scanT0 : scan_tier 28 (init_expression_parser_state (pref ++ [a, "-", b, "-", c]) pref.length (pref.length + 5) ns lit tbl) (pref.length + 4) = .ok .nullNode := by
    rw [scan_tier_step_nomatch 26 (init_expression_parser_state (pref ++ [a, "-", b, "-", c]) pref.length (pref.length + 5) ns lit tbl) (pref.length + 4) (pref.length + 3) c
      (Nat.le_add_right pref.length 4) t4 hc8 (find_op_tier0_none c hc1) rfl]
    rw [scan_tier_step_nomatch 25 (init_expression_parser_state (pref ++ [a, "-", b, "-", c]) pref.length (pref.length + 5) ns lit tbl) (pref.length + 3) (pref.length + 2) "-"
      (Nat.le_add_right pref.length 3) t3 (by decide) (find_op_tier0_none "-" (by decide)) rfl]
    rw [scan_tier_step_nomatch 24 (init_expression_parser_state (pref ++ [a, "-", b, "-", c]) pref.length (pref.length + 5) ns lit tbl) (pref.length + 2) (pref.length + 1) b
      (Nat.le_add_right pref.length 2) t2 hb8 (find_op_tier0_none b hb1) rfl]
    rw [scan_tier_step_nomatch 23 (init_expression_parser_state (pref ++ [a, "-", b, "-", c]) pref.length (pref.length + 5) ns lit tbl) (pref.length + 1) pref.length "-"
      (Nat.le_add_right pref.length 1) t1 (by decide) (find_op_tier0_none "-" (by decide)) rfl]
    rw [scan_tier_step_nomatch 22 (init_expression_parser_state (pref ++ [a, "-", b, "-", c]) pref.length (pref.length + 5) ns lit tbl) pref.length (pref.length - 1) a
      (Nat.le_refl pref.length) t0 ha8 (find_op_tier0_none a ha1) hsd]
    rw [scan_tier_exit 22 (init_expression_parser_state (pref ++ [a, "-", b, "-", c]) pref.length (pref.length + 5) ns lit tbl) (pref.length - 1)
      ((by omega : ¬ (pref.length ≤ pref.length - 1)))]
  refine ⟨?_, resolve_value_not_binary lit ns c nc hrc⟩
  rw [parse_expression_eq 30 _ _ _ _ _ _ _ mp]
  rw [parse_sub_to_tiers 29 (init_expression_parser_state (pref ++ [a, "-", b, "-", c]) pref.length (pref.length + 5) ns lit tbl) a ((by omega : ¬ (pref.length + 1 = pref.length + 5)))
    t0 ha7]
  rw [tier_loop_step_next 28 (init_expression_parser_state (pref ++ [a, "-", b, "-", c]) pref.length (pref.length + 5) ns lit tbl) ⟨(pref ++ [a, "-", b, "-", c]), "", 0, pref.length, pref.length, pref.length + 5, 1, tbl, ns, lit⟩ ((by decide : (0:Nat) < COMMON_PRECEDENCE_GROUPS))
    rfl scanT0]
  rw [tier_loop_step_found 27 ⟨(pref ++ [a, "-", b, "-", c]), "", 0, pref.length, pref.length, pref.length + 5, 1, tbl, ns, lit⟩ _ ((by decide : (1:Nat) < COMMON_PRECEDENCE_GROUPS))
    scan1 (by simp)]


/-- Witness for the amended claim C6 at offset 1 with the literal operands
1, 2 and 3. -/
theorem c6_sub_left_associative_witness :
    parse_expression 30 (["_"] ++ ["1", "-", "2", "-", "3"]) (List.length ["_"])
        (List.length ["_"] + 5) test_ns test_lit test_tbl
      = .ok (.binaryNode "int" "sub_assembly"
          (.binaryNode "int" "sub_assembly" (.literalNode "int" "1")
            (.literalNode "int" "2"))
          (.literalNode "int" "3"))
  ∧ (∀ ty gen l r, (astNode.literalNode "int" "3") ≠ .binaryNode ty gen l r) :=
  c6_sub_left_associative_positive_offset ["_"] "1" "2" "3" test_ns test_lit test_tbl
    (.literalNode "int" "1") (.literalNode "int" "2") (.literalNode "int" "3")
    (by decide) (by decide) (by decide) (by decide) rfl rfl rfl

/-- Claim C7 (counterexample): parsing the full vector 1 + 2 * 3 as the
range [0, 5) does not produce the precedence tree: the lowest-tier scan
decrements its unsigned index past zero, wraps to SIZE_MAX, and the parse
aborts on an out-of-range token read. -/
theorem c7_add_mul_at_offset_zero_counterexample :
    parse_expression 30 ["1", "+", "2", "*", "3"] 0 5 test_ns test_lit test_tbl
      = .error .oob := by
  decide

/-- Claim C7 (amended): for all operand tokens a, b, c that resolve as
values, parsing the range holding a + b * c at a positive offset into the
token vector yields the tree with the plus node at the root and the times
node as its right operand, typed by the right operand, per the tier ordering
assignment below additive below multiplicative. At offset zero the
lowest-tier scan instead wraps its unsigned index and reads out of range; see
the counterexample theorem. -/
theorem c7_add_mul_precedence_positive_offset (pref : List String) (a b c : String) (ns lit : String → Option String)
    (tbl : Nat → Nat) (na nb nc : astNode)
    (hp : pref ≠ [])
    (ha : operand_token a) (hb : operand_token b) (hc : operand_token c)
    (hra : resolve_value lit ns a = .ok na)
    (hrb : resolve_value lit ns b = .ok nb)
    (hrc : resolve_value lit ns c = .ok nc) :
    parse_expression 30 (pref ++ [a, "+", b, "*", c]) pref.length (pref.length + 5) ns lit tbl
      = .ok (.binaryNode nc.expr_type_of "add_assembly" na
          (.binaryNode nc.expr_type_of "mul_assembly" nb nc)) := by
  obtain ⟨ha1, ha2, ha3, ha4, ha5, ha6, ha7, ha8⟩ := ha
  obtain ⟨hb1, hb2, hb3, hb4, hb5, hb6, hb7, hb8⟩ := hb
  obtain ⟨hc1, hc2, hc3, hc4, hc5, hc6, hc7, hc8⟩ := hc
  have hs : pref.length ≠ 0 := fun h => hp (List.eq_nil_of_length_eq_zero h)
  have t0 : vecGet (pref ++ [a, "+", b, "*", c]) pref.length = .ok a := by
    rw [vecGet_append_zero, vecGet_cons_zero]
  have t1 : vecGet (pref ++ [a, "+", b, "*", c]) (pref.length + 1) = .ok "+" := by
    rw [vecGet_append_add]; rfl
  have t2 : vecGet (pref ++ [a, "+", b, "*", c]) (pref.length + 2) = .ok b := by
    rw [vecGet_append_add]; rfl
  have t3 : vecGet (pref ++ [a, "+", b, "*", c]) (pref.length + 3) = .ok "*" := by
    rw [vecGet_append_add]; rfl
  have t4 : vecGet (pref ++ [a, "+", b, "*", c]) (pref.length + 4) = .ok c := by
    rw [vecGet_append_add]; rfl
  have hsd : pref.length - 1 = sdec pref.length := by simp [sdec, hs]
  have mp : match_parens (pref ++ [a, "+", b, "*", c]) pref.length (pref.length + 5) tbl = .ok (true, tbl) := by
    rw [match_parens, Nat.add_sub_cancel_left]
    rw [match_parens_loop_skip _ _ 4 _ _ _ a t0 ha7 ha8]
    rw [match_parens_loop_skip _ _ 3 _ _ _ a t0 ha7 ha8]
    rw [match_parens_loop_skip _ _ 2 _ _ _ a t0 ha7 ha8]
    rw [match_parens_loop_skip _ _ 1 _ _ _ a t0 ha7 ha8]
    rw [match_parens_loop_skip _ _ 0 _ _ _ a t0 ha7 ha8]
    rfl
  have ncNN : nc ≠ .nullNode := resolve_value_ne_null lit ns c nc hrc
  have nbNN : nb ≠ .nullNode := resolve_value_ne_null lit ns b nb hrb
  have hlI : parse_sub_expression 14 ⟨(pref ++ [a, "+", b, "*", c]), "*", pref.length + 3, pref.length, pref.length + 1 + 1, pref.length + 3, 2, tbl, ns, lit⟩ = .ok nb := by
    rw [parse_sub_single 13 ⟨(pref ++ [a, "+", b, "*", c]), "*", pref.length + 3, pref.length, pref.length + 1 + 1, pref.length + 3, 2, tbl, ns, lit⟩ rfl, parse_value_eq ⟨(pref ++ [a, "+", b, "*", c]), "*", pref.length + 3, pref.length, pref.length + 1 + 1, pref.length + 3, 2, tbl, ns, lit⟩ b t2]
    exact hrb
  have hrI : parse_sub_expression 14 ⟨(pref ++ [a, "+", b, "*", c]), "*", pref.length + 3, pref.length, pref.length + 3 + 1, pref.length + 5, 2, tbl, ns, lit⟩ = .ok nc := by
    rw [parse_sub_single 13 ⟨(pref ++ [a, "+", b, "*", c]), "*", pref.length + 3, pref.length, pref.length + 3 + 1, pref.length + 5, 2, tbl, ns, lit⟩ rfl, parse_value_eq ⟨(pref ++ [a, "+", b, "*", c]), "*", pref.length + 3, pref.length, pref.length + 3 + 1, pref.length + 5, 2, tbl, ns, lit⟩ c t4]
    exact hrc
  have hbinI : binary_operation_parse_fn 15 ⟨(pref ++ [a, "+", b, "*", c]), "*", pref.length + 3, pref.length, pref.length + 1 + 1, pref.length + 5, 2, tbl, ns, lit⟩ (assembly_generator_of "mul_parser")
      = .ok (.binaryNode nc.expr_type_of "mul_assembly" nb nc) := by
    rw [binary_step 14 ⟨(pref ++ [a, "+", b, "*", c]), "*", pref.length + 3, pref.length, pref.length + 1 + 1, pref.length + 5, 2, tbl, ns, lit⟩ ⟨(pref ++ [a, "+", b, "*", c]), "*", pref.length + 3, pref.length, pref.length + 1 + 1, pref.length + 3, 2, tbl, ns, lit⟩ ⟨(pref ++ [a, "+", b, "*", c]), "*", pref.length + 3, pref.length, pref.length + 3 + 1, pref.length + 5, 2, tbl, ns, lit⟩ _ nb nc rfl rfl hlI hrI ncNN]
    rfl
  have scanR2 : scan_tier 18 ⟨(pref ++ [a, "+", b, "*", c]), "+", pref.length + 1, pref.length, pref.length + 1 + 1, pref.length + 5, 2, tbl, ns, lit⟩ (pref.length + 4)
      = .ok (.binaryNode nc.expr_type_of "mul_assembly" nb nc) := by
    rw [scan_tier_step_nomatch 16 ⟨(pref ++ [a, "+", b, "*", c]), "+", pref.length + 1, pref.length, pref.length + 1 + 1, pref.length + 5, 2, tbl, ns, lit⟩ (pref.length + 4) (pref.length + 3) c
      ((by omega : pref.length + 1 + 1 ≤ pref.length + 4)) t4 hc8
      (find_op_tier2_none c hc4 hc5 hc6) rfl]
    rw [scan_tier_step_found 15 ⟨(pref ++ [a, "+", b, "*", c]), "+", pref.length + 1, pref.length, pref.length + 1 + 1, pref.length + 5, 2, tbl, ns, lit⟩ ⟨(pref ++ [a, "+", b, "*", c]), "*", pref.length + 3, pref.length, pref.length + 1 + 1, pref.length + 5, 2, tbl, ns, lit⟩ (pref.length + 3) "*" "*" "mul_parser" _
      ((by omega : pref.length + 1 + 1 ≤ pref.length + 3)) t3 (by decide)
      find_op_tier2_mul (by decide) rfl hbinI (by simp)]
  have scanR0 : scan_tier 19 ⟨(pref ++ [a, "+", b, "*", c]), "+", pref.length + 1, pref.length, pref.length + 1 + 1, pref.length + 5, 1, tbl, ns, lit⟩ (pref.length + 4) = .ok .nullNode := by
    rw [scan_tier_step_nomatch 17 ⟨(pref ++ [a, "+", b, "*", c]), "+", pref.length + 1, pref.length, pref.length + 1 + 1, pref.length + 5, 1, tbl, ns, lit⟩ (pref.length + 4) (pref.length + 3) c
      ((by omega : pref.length + 1 + 1 ≤ pref.length + 4)) t4 hc8
      (find_op_tier1_none c hc2 hc3) rfl]
    rw [scan_tier_step_nomatch 16 ⟨(pref ++ [a, "+", b, "*", c]), "+", pref.length + 1, pref.length, pref.length + 1 + 1, pref.length + 5, 1, tbl, ns, lit⟩ (pref.length + 3) (pref.length + 2) "*"
      ((by omega : pref.length + 1 + 1 ≤ pref.length + 3)) t3 (by decide)
      (find_op_tier1_none "*" (by decide) (by decide)) rfl]
    rw [scan_tier_step_nomatch 15 ⟨(pref ++ [a, "+", b, "*", c]), "+", pref.length + 1, pref.length, pref.length + 1 + 1, pref.length + 5, 1, tbl, ns, lit⟩ (pref.length + 2) (pref.length + 1) b
      ((by omega : pref.length + 1 + 1 ≤ pref.length + 2)) t2 hb8
      (find_op_tier1_none b hb2 hb3) rfl]
    rw [scan_tier_exit 15 ⟨(pref ++ [a, "+", b, "*", c]), "+", pref.length + 1, pref.length, pref.length + 1 + 1, pref.length + 5, 1, tbl, ns, lit⟩ (pref.length + 1)
      ((by omega : ¬ (pref.length + 1 + 1 ≤ pref.length + 1)))]
  have hr7 : parse_sub_expression 21 ⟨(pref ++ [a, "+", b, "*", c]), "+", pref.length + 1, pref.length, pref.length + 1 + 1, pref.length + 5, 1, tbl, ns, lit⟩
      = .ok (.binaryNode nc.expr_type_of "mul_assembly" nb nc) := by
    rw [parse_sub_to_tiers 20 ⟨(pref ++ [a, "+", b, "*", c]), "+", pref.length + 1, pref.length, pref.length + 1 + 1, pref.length + 5, 1, tbl, ns, lit⟩ b
      ((by omega : ¬ (pref.length + 1 + 1 + 1 = pref.length + 5))) t2 hb7]
    rw [tier_loop_step_next 19 ⟨(pref ++ [a, "+", b, "*", c]), "+", pref.length + 1, pref.length, pref.length + 1 + 1, pref.length + 5, 1, tbl, ns, lit⟩ ⟨(pref ++ [a, "+", b, "*", c]), "+", pref.length + 1, pref.length, pref.length + 1 + 1, pref.length + 5, 2, tbl, ns, lit⟩
      ((by decide : (1:Nat) < COMMON_PRECEDENCE_GROUPS)) rfl scanR0]
    rw [tier_loop_step_found 18 ⟨(pref ++ [a, "+", b, "*", c]), "+", pref.length + 1, pref.length, pref.length + 1 + 1, pref.length + 5, 2, tbl, ns, lit⟩ _
      ((by decide : (2:Nat) < COMMON_PRECEDENCE_GROUPS)) scanR2 (by simp)]
  have hl7 : parse_sub_expression 21 ⟨(pref ++ [a, "+", b, "*", c]), "+", pref.length + 1, pref.length, pref.length, pref.length + 1, 1, tbl, ns, lit⟩ = .ok na := by
    rw [parse_sub_single 20 ⟨(pref ++ [a, "+", b, "*", c]), "+", pref.length + 1, pref.length, pref.length, pref.length + 1, 1, tbl, ns, lit⟩ rfl, parse_value_eq ⟨(pref ++ [a, "+", b, "*", c]), "+", pref.length + 1, pref.length, pref.length, pref.length + 1, 1, tbl, ns, lit⟩ a t0]
    exact hra
  have hbin7 : binary_operation_parse_fn 22 ⟨(pref ++ [a, "+", b, "*", c]), "+", pref.length + 1, pref.length, pref.length, pref.length + 5, 1, tbl, ns, lit⟩ (assembly_generator_of "add_parser")
      = .ok (.binaryNode nc.expr_type_of "add_assembly" na
          (.binaryNode nc.expr_type_of "mul_assembly" nb nc)) := by
    rw [binary_step 21 ⟨(pref ++ [a, "+", b, "*", c]), "+", pref.length + 1, pref.length, pref.length, pref.length + 5, 1, tbl, ns, lit⟩ ⟨(pref ++ [a, "+", b, "*", c]), "+", pref.length + 1, pref.length, pref.length, pref.length + 1, 1, tbl, ns, lit⟩ ⟨(pref ++ [a, "+", b, "*", c]), "+", pref.length + 1, pref.length, pref.length + 1 + 1, pref.length + 5, 1, tbl, ns, lit⟩ _ na
      (.binaryNode nc.expr_type_of "mul_assembly" nb nc) rfl rfl hl7 hr7 (by simp)]
    rfl
  have scan1 : scan_tier 27 ⟨(pref ++ [a, "+", b, "*", c]), "", 0, pref.length, pref.length, pref.length + 5, 1, tbl, ns, lit⟩ (pref.length + 4)
      = .ok (.binaryNode nc.expr_type_of "add_assembly" na
          (.binaryNode nc.expr_type_of "mul_assembly" nb nc)) := by
    rw [scan_tier_step_nomatch 25 ⟨(pref ++ [a, "+", b, "*", c]), "", 0, pref.length, pref.length, pref.length + 5, 1, tbl, ns, lit⟩ (pref.length + 4) (pref.length + 3) c
      (Nat.le_add_right pref.length 4) t4 hc8 (find_op_tier1_none c hc2 hc3) rfl]
    rw [scan_tier_step_nomatch 24 ⟨(pref ++ [a, "+", b, "*", c]), "", 0, pref.length, pref.length, pref.length + 5, 1, tbl, ns, lit⟩ (pref.length + 3) (pref.length + 2) "*"
      (Nat.le_add_right pref.length 3) t3 (by decide)
      (find_op_tier1_none "*" (by decide) (by decide)) rfl]
    rw [scan_tier_step_nomatch 23 ⟨(pref ++ [a, "+", b, "*", c]), "", 0, pref.length, pref.length, pref.length + 5, 1, tbl, ns, lit⟩ (pref.length + 2) (pref.length + 1) b
      (Nat.le_add_right pref.length 2) t2 hb8 (find_op_tier1_none b hb2 hb3) rfl]
    rw [scan_tier_step_found 22 ⟨(pref ++ [a, "+", b, "*", c]), "", 0, pref.length, pref.length, pref.length + 5, 1, tbl, ns, lit⟩ ⟨(pref ++ [a, "+", b, "*", c]), "+", pref.length + 1, pref.length, pref.length, pref.length + 5, 1, tbl, ns, lit⟩ (pref.length + 1) "+" "+" "add_parser" _
      (Nat.le_add_right pref.length 1) t1 (by decide) find_op_tier1_add (by decide) rfl
      hbin7 (by simp)]
  have scanT0 : scan_tier 28 (init_expression_parser_state (pref ++ [a, "+", b, "*", c]) pref.length (pref.length + 5) ns lit tbl) (pref.length + 4) = .ok .nullNode := by
    rw [scan_tier_step_nomatch 26 (init_expression_parser_state (pref ++ [a, "+", b, "*", c]) pref.length (pref.length + 5) ns lit tbl) (pref.length + 4) (pref.length + 3) c
      (Nat.le_add_right pref.length 4) t4 hc8 (find_op_tier0_none c hc1) rfl]
    rw [scan_tier_step_nomatch 25 (init_expression_parser_state (pref ++ [a, "+", b, "*", c]) pref.length (pref.length + 5) ns lit tbl) (pref.length + 3) (pref.length + 2) "*"
      (Nat.le_add_right pref.length 3) t3 (by decide) (find_op_tier0_none "*" (by decide)) rfl]
    rw [scan_tier_step_nomatch 24 (init_expression_parser_state (pref ++ [a, "+", b, "*", c]) pref.length (pref.length + 5) ns lit tbl) (pref.length + 2) (pref.length + 1) b
      (Nat.le_add_right pref.length 2) t2 hb8 (find_op_tier0_none b hb1) rfl]
    rw [scan_tier_step_nomatch 23 (init_expression_parser_state (pref ++ [a, "+", b, "*", c]) pref.length (pref.length + 5) ns lit tbl) (pref.length + 1) pref.length "+"
      (Nat.le_add_right pref.length 1) t1 (by decide) (find_op_tier0_none "+" (by decide)) rfl]
    rw [scan_tier_step_nomatch 22 (init_expression_parser_state (pref ++ [a, "+", b, "*", c]) pref.length (pref.length + 5) ns lit tbl) pref.length (pref.length - 1) a
      (Nat.le_refl pref.length) t0 ha8 (find_op_tier0_none a ha1) hsd]
    rw [scan_tier_exit 22 (init_expression_parser_state (pref ++ [a, "+", b, "*", c]) pref.length (pref.length + 5) ns lit tbl) (pref.length - 1)
      ((by omega : ¬ (pref.length ≤ pref.length - 1)))]
  rw [parse_expression_eq 30 _ _ _ _ _ _ _ mp]
  rw [parse_sub_to_tiers 29 (init_expression_parser_state (pref ++ [a, "+", b, "*", c]) pref.length (pref.length + 5) ns lit tbl) a ((by omega : ¬ (pref.length + 1 = pref.length + 5)))
    t0 ha7]
  rw [tier_loop_step_next 28 (init_expression_parser_state (pref ++ [a, "+", b, "*", c]) pref.length (pref.length + 5) ns lit tbl) ⟨(pref ++ [a, "+", b, "*", c]), "", 0, pref.length, pref.length, pref.length + 5, 1, tbl, ns, lit⟩ ((by decide : (0:Nat) < COMMON_PRECEDENCE_GROUPS))
    rfl scanT0]
  rw [tier_loop_step_found 27 ⟨(pref ++ [a, "+", b, "*", c]), "", 0, pref.length, pref.length, pref.length + 5, 1, tbl, ns, lit⟩ _ ((by decide : (1:Nat) < COMMON_PRECEDENCE_GROUPS))
    scan1 (by simp)]


/-- Witness for the amended claim C7 at offset 1 with the literal operands
1, 2 and 3. -/
theorem c7_add_mul_precedence_witness :
    parse_expression 30 (["_"] ++ ["1", "+", "2", "*", "3"]) (List.length ["_"])
        (List.length ["_"] + 5) test_ns test_lit test_tbl
      = .ok (.binaryNode "int" "add_assembly" (.literalNode "int" "1")
          (.binaryNode "int" "mul_assembly" (.literalNode "int" "2")
            (.literalNode "int" "3"))) :=
  c7_add_mul_precedence_positive_offset ["_"] "1" "2" "3" test_ns test_lit test_tbl
    (.literalNode "int" "1") (.literalNode "int" "2") (.literalNode "int" "3")
    (by decide) (by decide) (by decide) (by decide) rfl rfl rfl

/-- Claim C8: the assignment parse function fails with Invalid Assignment
unless the operator sits exactly one token after the statement start
(size_t subtraction of expr_start from token_index equals 1); otherwise the
left child is the namespace lookup of the token before the operator, the
right side is parsed as a full sub-expression from just after the operator
to the current range end (the state passed on keeps endIdx), and the
resulting binary node is typed by the right-hand value. -/
theorem c8_assignment_shape (fuel : Nat) (p : expression_parser_s) :
    (ssub p.token_index p.expr_start ≠ 1 →
      assignment_parse_fn (fuel + 1) p = .error (.compilerError "Invalid Assignment"))
  ∧ (∀ (var_name : String) (value : astNode),
      ssub p.token_index p.expr_start = 1 →
      vecGet p.tokenv (sdec p.token_index) = .ok var_name →
      parse_sub_expression fuel { p with start := p.token_index + 1 } = .ok value →
      value ≠ .nullNode →
      assignment_parse_fn (fuel + 1) p
        = .ok (binary_operation_new value.expr_type_of (var_lookup p.ns var_name) value
            "assignment_assembly")) := by
  constructor
  · intro h
    rw [assignment_parse_fn, if_pos h]
  · intro var_name value h1 hvar hval hvn
    rw [assignment_parse_fn, if_neg (by simp [h1])]
    rw [hvar]
    show (match parse_sub_expression fuel { p with start := p.token_index + 1 } with
      | Except.error e => Except.error e
      | Except.ok astNode.nullNode => Except.error Err.nullDeref
      | Except.ok value =>
        Except.ok (binary_operation_new value.expr_type_of (var_lookup p.ns var_name)
          value "assignment_assembly")) = _
    rw [hval]
    cases value with
    | nullNode => exact absurd rfl hvn
    | literalNode t v => rfl
    | varNode t v => rfl
    | binaryNode t g l r => rfl

/-- Witness for claim C8: on the statement x = 5 (range [0, 3)) with the
operator at index 1, the result is the assignment node with the variable x
as left child, the int literal 5 as right child and type int; with the
operator two tokens after the statement start the result is the Invalid
Assignment error. -/
theorem c8_assignment_shape_witness :
    assignment_parse_fn 11
      ⟨["x", "=", "5"], "=", 2, 0, 0, 3, 0, test_tbl, test_ns, test_lit⟩
      = .error (.compilerError "Invalid Assignment")
  ∧ assignment_parse_fn 11
      ⟨["x", "=", "5"], "=", 1, 0, 0, 3, 0, test_tbl, test_ns, test_lit⟩
      = .ok (binary_operation_new "int" (var_lookup test_ns "x")
          (.literalNode "int" "5") "assignment_assembly") :=
  ⟨(c8_assignment_shape 10 _).1 (by decide),
   (c8_assignment_shape 10 _).2 "x" (.literalNode "int" "5") (by decide) (by decide)
     (by decide) (by decide)⟩

/-- Claim C9: for a single-token range, parse_value first tries literal-type
inference and on success returns a literal leaf with the inferred type and
the token text; otherwise it looks the token up in the namespace and on
success returns a variable leaf with the declared type and the token as
name; if both fail it raises Invalid Value. The three conjuncts fix the
order: the literal branch applies whatever the namespace holds. -/
theorem c9_value_resolution_order (p : expression_parser_s) (token : String)
    (htok : vecGet p.tokenv p.start = .ok token) :
    (∀ t, p.get_literal_type token = some t →
      parse_value p = .ok (literal_node_new t token))
  ∧ (∀ ty, p.get_literal_type token = none → p.ns token = some ty →
      parse_value p = .ok (var_node_new ty token))
  ∧ (p.get_literal_type token = none → p.ns token = none →
      parse_value p = .error (.compilerError "Invalid Value")) := by
  refine ⟨?_, ?_, ?_⟩
  · intro t h
    rw [parse_value_eq p token htok]
    simp [resolve_value, h]
  · intro ty h1 h2
    rw [parse_value_eq p token htok]
    simp [resolve_value, var_lookup, h1, h2, var_node_new, astNode.expr_type_of]
  · intro h1 h2
    rw [parse_value_eq p token htok]
    simp [resolve_value, var_lookup, h1, h2]

/-- Witness for claim C9: the literal 5 resolves as an int literal leaf, the
declared variable x as an int variable leaf, and the token q, which is
neither, raises Invalid Value. -/
theorem c9_value_resolution_order_witness :
    parse_value ⟨["5"], "", 0, 0, 0, 1, 0, test_tbl, test_ns, test_lit⟩
      = .ok (literal_node_new "int" "5")
  ∧ parse_value ⟨["x"], "", 0, 0, 0, 1, 0, test_tbl, test_ns, test_lit⟩
      = .ok (var_node_new "int" "x")
  ∧ parse_value ⟨["q"], "", 0, 0, 0, 1, 0, test_tbl, test_ns, test_lit⟩
      = .error (.compilerError "Invalid Value") :=
  ⟨(c9_value_resolution_order _ "5" (by decide)).1 "int" (by decide),
   (c9_value_resolution_order _ "x" (by decide)).2.1 "int" (by decide) (by decide),
   (c9_value_resolution_order _ "q" (by decide)).2.2 (by decide) (by decide)⟩

/-- Claim C10 (counterexample): on the range [0, 3) of a + b the lowest-tier
scan finds no assignment operator, decrements the unsigned index below
start = 0, wraps to SIZE_MAX (the loop condition stays true), and reads out
of range instead of ending the scan; both the full parse and the isolated
scan index dynamics show the out-of-range read. -/
theorem c10_scan_wraps_at_start_zero_counterexample :
    parse_expression 30 ["a", "+", "b"] 0 3 test_ns test_lit test_tbl = .error .oob
  ∧ find_split_index 10
      ⟨["a", "+", "b"], "", 0, 0, 0, 3, 0, test_tbl, test_ns, test_lit⟩ 2
      = .error .oob := by
  exact ⟨by decide, by decide⟩

/-- Claim C10 (amended): the right-to-left tier scan terminates for every
token range whose start index is at least 1, provided every consulted match
table entry points between the range start and the closing parenthesis it is
read for: decrementing the unsigned index below such a start makes the loop
condition false. For start = 0 the decrement wraps to SIZE_MAX instead and
the scan continues past the left edge of the range; see the counterexample
theorem. The scan index dynamics are captured by find_split_index, and
termination is expressed as: enough fuel is never exhausted. -/
theorem c10_scan_terminates_for_positive_start (p : expression_parser_s) (fuel idx : Nat)
    (h1 : 1 ≤ p.start) (h2 : p.expr_start ≤ p.start)
    (h3 : ∀ k, p.start ≤ p.paren_matches k ∧ p.paren_matches k ≤ k + p.expr_start)
    (h4 : idx + 1 ≤ fuel) :
    find_split_index fuel p idx ≠ .error .outOfFuel := by
  induction fuel generalizing idx with
  | zero => exact absurd h4 (by omega)
  | succ f ih =>
    rw [find_split_index]
    by_cases hle : p.start ≤ idx
    · rw [if_pos hle]
      cases hv : vecGet p.tokenv idx with
      | error e =>
        have he : e = .oob := vecGet_error_is_oob _ _ _ hv
        subst he
        simp
      | ok tok =>
        show (if tok = ")" then find_split_index f p (sdec (p.paren_matches (ssub idx p.expr_start)))
          else match find_operator (operators.getD p.op_group_index []) tok with
            | some op => Except.ok (some idx)
            | none => find_split_index f p (sdec idx)) ≠ Except.error Err.outOfFuel
        by_cases hpar : tok = ")"
        · rw [if_pos hpar]
          have hss : ssub idx p.expr_start = idx - p.expr_start := by
            unfold ssub
            rw [if_pos (Nat.le_trans h2 hle)]
          rw [hss]
          have hm := h3 (idx - p.expr_start)
          have hv1 : 1 ≤ p.paren_matches (idx - p.expr_start) := Nat.le_trans h1 hm.1
          have hv2 : p.paren_matches (idx - p.expr_start) ≤ idx := by
            have := hm.2
            have hes : p.expr_start ≤ idx := Nat.le_trans h2 hle
            omega
          have hsd : sdec (p.paren_matches (idx - p.expr_start))
              = p.paren_matches (idx - p.expr_start) - 1 := by
            unfold sdec
            rw [if_neg (by omega)]
          rw [hsd]
          exact ih _ (by omega)
        · rw [if_neg hpar]
          cases hf : find_operator (operators.getD p.op_group_index []) tok with
          | some op => simp
          | none =>
            have hsd : sdec idx = idx - 1 := by
              unfold sdec
              rw [if_neg (by omega)]
            rw [hsd]
            exact ih _ (by omega)
    · rw [if_neg hle]
      simp


/-- Witness for the amended claim C10 at a concrete state with start 1 and a
match table satisfying the bounds. -/
theorem c10_scan_terminates_witness :
    find_split_index 10
      ⟨["_", "a", "b"], "", 0, 1, 1, 3, 0, (fun _ => 1), test_ns, test_lit⟩ 2
      ≠ .error .outOfFuel :=
  c10_scan_terminates_for_positive_start
    ⟨["_", "a", "b"], "", 0, 1, 1, 3, 0, (fun _ => 1), test_ns, test_lit⟩ 10 2
    (Nat.le_refl 1) (Nat.le_refl 1)
    (fun k => ⟨Nat.le_refl 1, Nat.le_add_left 1 k⟩) (by decide)
